import Mathlib

/-
Verification of the pixel/element layout inference in package `gla`
(src/gla.go) against its specification.

The Go source is shallowly embedded below.  Go machine integers of type
`int` are modelled as `Int` (no claim here depends on 64-bit wraparound);
Go's truncating integer division and remainder are `Int.tdiv` / `Int.tmod`.
Go byte buffers (`[]uint8`) are `List Nat`.  A Go function that can
`panic` (directly or through the `reflect` package) or return an `error`
value is modelled with the three-way `Outcome` type.  Raw machine
addresses are not modelled; instead `imageInfo.dataPix` records the byte
buffer that the Go `Data` pointer points into, which is what the claims
about buffer content and aliasing are about.  The native OpenGL calls
issued by the public entry points are recorded as a trace (`List
NativeCall`); the GL enumeration values are the standard numeric values
exported by the external binding.
-/

set_option autoImplicit false

namespace Gla

/-- Outcome of running a Go function: a normal return, a returned
`error` value, or a runtime panic. -/
inductive Outcome (α : Type) where
| ok (a : α)
| error (msg : String)
| panics (msg : String)
deriving DecidableEq

/-- Go `image.Rectangle` (only the corner coordinates matter here). -/
structure Rectangle where
  minX : Int
  minY : Int
  maxX : Int
  maxY : Int
deriving DecidableEq

/-- Go `Rectangle.Dx()`. -/
def Rectangle.dx (r : Rectangle) : Int := r.maxX - r.minX

/-- Go `Rectangle.Dy()`. -/
def Rectangle.dy (r : Rectangle) : Int := r.maxY - r.minY

/-- Go `Rectangle.Empty()`: `r.Min.X >= r.Max.X || r.Min.Y >= r.Max.Y`. -/
def Rectangle.isEmpty (r : Rectangle) : Bool :=
  r.maxX ≤ r.minX || r.maxY ≤ r.minY

/-- The concrete pixel representations that `getImageInfo` and
`getCompressedImageInfo` dispatch on (`image.*`, `glimage.*`), plus a
catch-all `unknown` for every other `image.Image` implementation. -/
inductive PixKind where
| alpha | alpha16 | gray | gray16 | rgba | rgba64
| bgra | bgra4444 | bgra5551 | bgr565
| dxt1 | dxt3 | dxt5
| unknown
deriving DecidableEq

/-- An image value as the Go code sees it: its concrete representation,
its raw byte buffer `Pix`, its `Stride`, and its bounds `Rect`.
`rgbaAt x y` abstracts the external libraries' per-pixel conversion to
8-bit RGBA (used only by the `draw.Draw` fallback path); the layout
claims do not depend on its values. -/
structure GoImage where
  kind : PixKind
  pix : List Nat
  stride : Int
  rect : Rectangle
  rgbaAt : Int → Int → Nat × Nat × Nat × Nat

-- GL enumeration values (standard OpenGL numeric values, as exported by
-- the external binding and by the constant block at src/gla.go:85).
def GL_ALPHA : Nat := 0x1906
def GL_RGB : Nat := 0x1907
def GL_RGBA : Nat := 0x1908
def GL_LUMINANCE : Nat := 0x1909
def GL_BGRA : Nat := 0x80E1
def GL_UNSIGNED_BYTE : Nat := 0x1401
def GL_UNSIGNED_SHORT : Nat := 0x1403
def UNSIGNED_SHORT_5_6_5 : Nat := 0x8363
def UNSIGNED_SHORT_4_4_4_4_REV : Nat := 0x8365
def UNSIGNED_SHORT_1_5_5_5_REV : Nat := 0x8366
def COMPRESSED_RGBA_S3TC_DXT1 : Nat := 0x83F1
def COMPRESSED_RGBA_S3TC_DXT3 : Nat := 0x83F2
def COMPRESSED_RGBA_S3TC_DXT5 : Nat := 0x83F3
def GL_BYTE : Nat := 0x1400
def GL_SHORT : Nat := 0x1402
def GL_INT : Nat := 0x1404
def GL_UNSIGNED_INT : Nat := 0x1405
def GL_FLOAT : Nat := 0x1406
def GL_DOUBLE : Nat := 0x140A
def GL_UNPACK_ROW_LENGTH : Nat := 0x0CF2
def GL_UNPACK_ALIGNMENT : Nat := 0x0CF5

/-- Go struct `imageInfo` (src/gla.go:76).  `dataPix` stands for the
buffer the `Data` pointer points into. -/
structure imageInfo where
  rowLength : Int := 0
  length : Nat := 0
  format : Nat := 0
  typ : Nat := 0
  dataPix : List Nat := []
deriving DecidableEq

/-- The dispatch table of the `switch` in `getImageInfo`
(src/gla.go:115): for each recognized uncompressed representation, the
elements-per-pixel divisor `epp` and the GL format/type pair. -/
def recognizeUncompressed : PixKind → Option (Nat × Nat × Nat)
| .alpha => some (1, GL_ALPHA, GL_UNSIGNED_BYTE)
| .alpha16 => some (2, GL_ALPHA, GL_UNSIGNED_SHORT)
| .gray => some (1, GL_LUMINANCE, GL_UNSIGNED_BYTE)
| .gray16 => some (2, GL_LUMINANCE, GL_UNSIGNED_SHORT)
| .rgba => some (4, GL_RGBA, GL_UNSIGNED_BYTE)
| .rgba64 => some (8, GL_RGBA, GL_UNSIGNED_SHORT)
| .bgra => some (4, GL_BGRA, GL_UNSIGNED_BYTE)
| .bgra4444 => some (1, GL_BGRA, UNSIGNED_SHORT_4_4_4_4_REV)
| .bgra5551 => some (1, GL_BGRA, UNSIGNED_SHORT_1_5_5_5_REV)
| .bgr565 => some (1, GL_RGB, UNSIGNED_SHORT_5_6_5)
| _ => none

/-- Four bytes of one RGBA pixel. -/
def px4 : Nat × Nat × Nat × Nat → List Nat
| (r, g, b, a) => [r, g, b, a]

/-- The pixel buffer of `image.NewRGBA(r)` after
`draw.Draw(img, r.Sub(r.Min), i, r.Min, draw.Src)` (src/gla.go:159):
row-major, 4 bytes per pixel, pixel `(x, y)` of the new buffer holding
the source image's pixel at `(r.Min.X + x, r.Min.Y + y)` converted to
8-bit RGBA. -/
def newRGBAPix (i : GoImage) : List Nat :=
  let dxN := i.rect.dx.toNat
  let dyN := i.rect.dy.toNat
  (List.range (dxN * dyN)).flatMap fun p =>
    px4 (i.rgbaAt (i.rect.minX + (p % dxN : Nat)) (i.rect.minY + (p / dxN : Nat)))

/-- The stride of `image.NewRGBA(r)`: `4 * r.Dx()`. -/
def newRGBAStride (r : Rectangle) : Int := 4 * r.dx

/-- Model of `getImageInfo` (src/gla.go:109).  Panics modelled:
`reflect.Value.Index(0)` on an empty buffer (line 162/167, message
abbreviated), `image.NewRGBA` on negative dimensions (inside line 159),
and the explicit stride panic (line 171, quoted without the
apostrophe). -/
def getImageInfo (i : GoImage) : Outcome imageInfo :=
  match recognizeUncompressed i.kind with
  | some (epp, fmt, ty) =>
    if i.pix.length = 0 then
      .panics "reflect: array index out of range"
    else if i.stride.tmod (epp : Int) ≠ 0 then
      .panics "gla: stride is not usable with OpenGL"
    else
      .ok { rowLength := i.stride.tdiv (epp : Int), format := fmt, typ := ty,
            dataPix := i.pix }
  | none =>
    if i.rect.dx < 0 ∨ i.rect.dy < 0 then
      .panics "image: NewRGBA Rectangle has huge or negative dimensions"
    else
      let pix := newRGBAPix i
      if pix.length = 0 then
        .panics "reflect: array index out of range"
      else
        .ok { rowLength := (newRGBAStride i.rect).tdiv 4, format := GL_RGBA,
              typ := GL_UNSIGNED_BYTE, dataPix := pix }

/-- The dispatch table of the `switch` in `getCompressedImageInfo`
(src/gla.go:232): block size in bytes and GL format for the three
recognized block-compressed representations (block dimension is 4 for
all of them). -/
def dxtInfo : PixKind → Option (Nat × Nat)
| .dxt1 => some (8, COMPRESSED_RGBA_S3TC_DXT1)
| .dxt3 => some (16, COMPRESSED_RGBA_S3TC_DXT3)
| .dxt5 => some (16, COMPRESSED_RGBA_S3TC_DXT5)
| _ => none

/-- Go slice expression `l[a:b]`: panics unless `0 ≤ a ≤ b ≤ cap(l)`
(the buffers handled here are modelled with capacity = length). -/
def goSlice (l : List Nat) (a b : Int) : Outcome (List Nat) :=
  if 0 ≤ a ∧ a ≤ b ∧ b ≤ (l.length : Int) then
    .ok ((l.drop a.toNat).take (b - a).toNat)
  else
    .panics "slice bounds out of range"

/-- The copy loop of `getCompressedImageInfo` (src/gla.go:262): for
`i = idx, idx+1, ...` (`rem` iterations left),
`c = copy(pix[i*ss:(i+1)*ss], data[off+i*stride:off+(i+1)*stride])`,
returning the error `"gla: cannot copy subimage"` as soon as
`c != ss`. -/
def copyRows (data : List Nat) (ss stride off : Int) :
    Nat → Nat → List Nat → Outcome (List Nat)
| _, 0, pix => .ok pix
| idx, Nat.succ rem, pix =>
  match goSlice pix ((idx : Int) * ss) (((idx : Int) + 1) * ss) with
  | .panics m => .panics m
  | .error m => .error m
  | .ok dstRow =>
    match goSlice data (off + (idx : Int) * stride) (off + ((idx : Int) + 1) * stride) with
    | .panics m => .panics m
    | .error m => .error m
    | .ok srcRow =>
      let c := min dstRow.length srcRow.length
      let start := ((idx : Int) * ss).toNat
      let pix2 := pix.take start ++ srcRow.take c ++ pix.drop (start + c)
      if (c : Int) ≠ ss then .error "gla: cannot copy subimage"
      else copyRows data ss stride off (idx + 1) rem pix2

/-- Model of `getCompressedImageInfo` (src/gla.go:225), including the
sub-rectangle repack branch with its offset computation
`data_xoff = bounds.Min.X + (blockdim-1)/blockdim*blocksize` and
`data_yoff = bounds.Min.Y + (blockdim-1)/blockdim*stride` (note that
`(blockdim-1)/blockdim` is the integer `3/4 = 0`), the
`make([]uint8, ...)` allocation, and the final
`reflect.ValueOf(data).Index(0)` which panics on an empty buffer. -/
def getCompressedImageInfo (i : GoImage) : Outcome imageInfo :=
  match dxtInfo i.kind with
  | none => .error "gla: unrecognized texture format"
  | some (blocksize, fmt) =>
    let blockdim : Int := 4
    let bounds := i.rect
    let w := bounds.dx
    let h := bounds.dy
    let sub_stride := ((w + (blockdim - 1)).tdiv blockdim) * (blocksize : Int)
    let finish : List Nat → Outcome imageInfo := fun data =>
      if data.length = 0 then .panics "reflect: array index out of range"
      else .ok { length := data.length, format := fmt, dataPix := data }
    if sub_stride ≠ i.stride then
      let data_xoff := bounds.minX + ((blockdim - 1).tdiv blockdim) * (blocksize : Int)
      let data_yoff := bounds.minY + ((blockdim - 1).tdiv blockdim) * i.stride
      let data_offset := data_yoff + data_xoff
      let pixlen := ((w + (blockdim - 1)).tdiv blockdim) *
        ((h + (blockdim - 1)).tdiv blockdim) * (blocksize : Int)
      if pixlen < 0 then .panics "makeslice: len out of range"
      else
        let pix := List.replicate pixlen.toNat 0
        match copyRows i.pix sub_stride i.stride data_offset 0 (h.tdiv blockdim).toNat pix with
        | .panics m => .panics m
        | .error m => .error m
        | .ok data => finish data
    else
      finish i.pix

/-- One call into the native OpenGL API, with the arguments the Go code
passes (data pointers omitted; the buffer they point into is recorded in
`imageInfo.dataPix` / implied by the witness type). -/
inductive NativeCall where
| pixelStorei (pname : Nat) (param : Int)
| texImage2D (target : Nat) (level internalformat width height border : Int)
    (format typ : Nat)
| texSubImage2D (target : Nat) (level xoff yoff width height : Int) (format typ : Nat)
| compressedTexImage2D (target : Nat) (level : Int) (format : Nat)
    (width height border : Int) (imageSize : Nat)
| bufferData (target : Nat) (size : Nat) (usage : Nat)
| bufferSubData (target : Nat) (offset : Int) (size : Nat)
| vertexAttribPointer (index : Nat) (size : Nat) (typ : Nat) (normalized : Bool)
    (stride : Nat) (offset : Nat)
| vertexPointer (size typ stride offset : Nat)
| normalPointer (typ stride offset : Nat)
| colorPointer (size typ stride offset : Nat)
| texCoordPointer (size typ stride offset : Nat)
deriving DecidableEq

/-- Model of `TexImage2DFromImage` (src/gla.go:184): empty bounds are a silent
no-op; otherwise resolve the layout and issue the two `glPixelStorei`
calls followed by `glTexImage2D`. -/
def TexImage2DFromImage (target : Nat) (level internalformat border : Int)
    (img : GoImage) : Outcome (List NativeCall) :=
  let bounds := img.rect
  if bounds.isEmpty then .ok []
  else
    match getImageInfo img with
    | .panics m => .panics m
    | .error m => .error m
    | .ok info => .ok
        [.pixelStorei GL_UNPACK_ALIGNMENT 1,
         .pixelStorei GL_UNPACK_ROW_LENGTH info.rowLength,
         .texImage2D target level internalformat bounds.dx bounds.dy border
           info.format info.typ]

/-- Model of `TexSubImage2DFromImage` (src/gla.go:207): returns early only when
the destination rectangle is wider or taller than the source bounds;
there is no empty-bounds check before `getImageInfo`. -/
def TexSubImage2DFromImage (target : Nat) (level : Int) (dest : Rectangle)
    (img : GoImage) : Outcome (List NativeCall) :=
  let bounds := img.rect
  if dest.dx > bounds.dx ∨ dest.dy > bounds.dy then .ok []
  else
    match getImageInfo img with
    | .panics m => .panics m
    | .error m => .error m
    | .ok info => .ok
        [.pixelStorei GL_UNPACK_ALIGNMENT 1,
         .pixelStorei GL_UNPACK_ROW_LENGTH info.rowLength,
         .texSubImage2D target level dest.minX dest.minY dest.dx dest.dy
           info.format info.typ]

/-- Model of `CompressedTexImage2DFromImage` (src/gla.go:281): empty bounds are a
silent no-op; a resolver error is discarded (`return` with no native
call). -/
def CompressedTexImage2DFromImage (target : Nat) (level border : Int)
    (img : GoImage) : Outcome (List NativeCall) :=
  let bounds := img.rect
  if bounds.isEmpty then .ok []
  else
    match getCompressedImageInfo img with
    | .panics m => .panics m
    | .error _ => .ok []
    | .ok info => .ok
        [.compressedTexImage2D target level info.format bounds.dx bounds.dy border
          info.length]

/-- The shapes of value that `sliceToUintptr` (src/gla.go:307)
distinguishes via reflection: a pointer (nil, to a fixed-length array of
`n` elements of byte size `elemSize`, or to any other value of byte size
`size`), a slice (nil, or of length `n` with element byte size
`elemSize`), or a value of any other kind. -/
inductive SliceArg where
| ptrNil
| ptrArray (elemSize n : Nat)
| ptrVal (size : Nat)
| sliceNil
| slc (elemSize n : Nat)
| otherArg
deriving DecidableEq

/-- Go struct `sliceInfo` (src/gla.go:301) without the raw address. -/
structure sliceInfo where
  size : Nat
  length : Nat
deriving DecidableEq

/-- Model of `sliceToUintptr` (src/gla.go:307).  `val.Index(0)` on an empty
(non-nil) slice, and `i.Index(0)` on a pointer to a zero-length array,
panic inside `reflect`. -/
def sliceToUintptr : SliceArg → Outcome sliceInfo
| .ptrNil => .error "gla: nil"
| .ptrArray elemSize n =>
  if n = 0 then .panics "reflect: array index out of range"
  else .ok { size := elemSize, length := n }
| .ptrVal size => .ok { size := size, length := 1 }
| .sliceNil => .error "gla: nil"
| .slc elemSize n =>
  if n = 0 then .panics "reflect: array index out of range"
  else .ok { size := elemSize, length := n }
| .otherArg => .error "gla: not addressable"

/-- Model of `BufferData` (src/gla.go:346): resolve the source, then one
`glBufferData` with byte size `data.Size * data.Length`. -/
def BufferData (target : Nat) (slice : SliceArg) (usage : Nat) :
    Outcome (List NativeCall) :=
  match sliceToUintptr slice with
  | .panics m => .panics m
  | .error m => .error m
  | .ok d => .ok [.bufferData target (d.size * d.length) usage]

/-- Model of `BufferSubData` (src/gla.go:362): resolve the source, then one
`glBufferSubData` at byte offset `start_index * data.Size`. -/
def BufferSubData (target : Nat) (start_index : Int) (slice : SliceArg) :
    Outcome (List NativeCall) :=
  match sliceToUintptr slice with
  | .panics m => .panics m
  | .error m => .error m
  | .ok d => .ok [.bufferSubData target (start_index * (d.size : Int)) (d.size * d.length)]

/-- The numeric kinds accepted by `sliceFieldToGL` (src/gla.go:375). -/
inductive NumKind where
| i8 | i16 | i32 | u8 | u16 | u32 | f32 | f64
deriving DecidableEq

/-- Byte size of each numeric kind (Go `Type.Size()`). -/
def NumKind.size : NumKind → Nat
| .i8 => 1
| .i16 => 2
| .i32 => 4
| .u8 => 1
| .u16 => 2
| .u32 => 4
| .f32 => 4
| .f64 => 8

/-- A Go type as `sliceAttrib` inspects it: a numeric scalar, a
fixed-length array, a struct (with its compiler-determined total size
and, per field, the field's type and byte offset), or a value of any
other kind (of the given size).  Struct sizes and field offsets are
carried explicitly because they are fixed by the Go compiler's layout
algorithm, not recomputed by the code under verification. -/
inductive RType where
| num (k : NumKind)
| array (elem : RType) (n : Nat)
| strct (size : Nat) (fields : List (RType × Nat))
| otherType (size : Nat)

/-- Go `Type.Size()`: scalar sizes are fixed, an array's size is its
length times its element size, a struct's size is whatever the compiler
laid out. -/
def RType.size : RType → Nat
| .num k => k.size
| .array elem n => n * elem.size
| .strct s _ => s
| .otherType s => s

/-- Whether the type's reflect `Kind()` is `Struct`. -/
def RType.isStrct : RType → Bool
| .strct _ _ => true
| _ => false

/-- Whether the type's reflect `Kind()` is `Array`. -/
def RType.isArr : RType → Bool
| .array _ _ => true
| _ => false

/-- Model of `sliceFieldToGL` (src/gla.go:375): map a numeric kind to its GL type
tag; anything else is a reported error. -/
def sliceFieldToGL : RType → Outcome Nat
| .num .i8 => .ok GL_BYTE
| .num .i16 => .ok GL_SHORT
| .num .i32 => .ok GL_INT
| .num .u8 => .ok GL_UNSIGNED_BYTE
| .num .u16 => .ok GL_UNSIGNED_SHORT
| .num .u32 => .ok GL_UNSIGNED_INT
| .num .f32 => .ok GL_FLOAT
| .num .f64 => .ok GL_DOUBLE
| _ => .error "gla: invalid data type in reflection"

/-- Go struct `attribInfo` (src/gla.go:401). -/
structure attribInfo where
  gltype : Nat
  elements : Nat
  offset : Nat
  stride : Nat
deriving DecidableEq

/-- Model of `sliceAttrib` (src/gla.go:408).  `t.Field(i)` panics inside
`reflect` when `i` is negative or not below the number of fields; for
non-struct witnesses `dummy_index` is never consulted.  An error from
`sliceFieldToGL` is replaced by `"gla: invalid type"` after the switch
(line 430). -/
def sliceAttrib (t : RType) (dummy_index : Int) : Outcome attribInfo :=
  let stride := t.size
  match t with
  | .strct _ fields =>
    if 0 ≤ dummy_index then
      match fields.get? dummy_index.toNat with
      | some sf =>
        match sf.1 with
        | .array elem n =>
          match sliceFieldToGL elem with
          | .ok g => .ok { gltype := g, elements := n, offset := sf.2, stride := stride }
          | _ => .error "gla: invalid type"
        | ft =>
          match sliceFieldToGL ft with
          | .ok g => .ok { gltype := g, elements := 1, offset := sf.2, stride := stride }
          | _ => .error "gla: invalid type"
      | none => .panics "reflect: Field index out of bounds"
    else
      .panics "reflect: Field index out of bounds"
  | .array elem n =>
    match sliceFieldToGL elem with
    | .ok g => .ok { gltype := g, elements := n, offset := 0, stride := stride }
    | _ => .error "gla: invalid type"
  | _ =>
    match sliceFieldToGL t with
    | .ok g => .ok { gltype := g, elements := 1, offset := 0, stride := stride }
    | _ => .error "gla: invalid type"

/-- Model of `VertexAttribSlice` (src/gla.go:455). -/
def VertexAttribSlice (index : Nat) (normalized : Bool) (dummy : RType)
    (dummy_index : Int) : Outcome (List NativeCall) :=
  match sliceAttrib dummy dummy_index with
  | .panics m => .panics m
  | .error m => .error m
  | .ok d => .ok [.vertexAttribPointer index d.elements d.gltype normalized d.stride d.offset]

/-- Model of `VertexSlice` (src/gla.go:469). -/
def VertexSlice (dummy : RType) (dummy_index : Int) : Outcome (List NativeCall) :=
  match sliceAttrib dummy dummy_index with
  | .panics m => .panics m
  | .error m => .error m
  | .ok d => .ok [.vertexPointer d.elements d.gltype d.stride d.offset]

/-- Model of `NormalSlice` (src/gla.go:483): after a successful resolve, an
element count other than 3 is a reported error before any native
call. -/
def NormalSlice (dummy : RType) (dummy_index : Int) : Outcome (List NativeCall) :=
  match sliceAttrib dummy dummy_index with
  | .panics m => .panics m
  | .error m => .error m
  | .ok d =>
    if d.elements ≠ 3 then .error "gla: invalid number of elements"
    else .ok [.normalPointer d.gltype d.stride d.offset]

/-- Model of `ColorSlice` (src/gla.go:500). -/
def ColorSlice (dummy : RType) (dummy_index : Int) : Outcome (List NativeCall) :=
  match sliceAttrib dummy dummy_index with
  | .panics m => .panics m
  | .error m => .error m
  | .ok d => .ok [.colorPointer d.elements d.gltype d.stride d.offset]

/-- Model of `TexCoordSlice` (src/gla.go:514). -/
def TexCoordSlice (dummy : RType) (dummy_index : Int) : Outcome (List NativeCall) :=
  match sliceAttrib dummy dummy_index with
  | .panics m => .panics m
  | .error m => .error m
  | .ok d => .ok [.texCoordPointer d.elements d.gltype d.stride d.offset]

-- Helper lemmas.

theorem px4_length (x : Nat × Nat × Nat × Nat) : (px4 x).length = 4 := by
  obtain ⟨r, g, b, a⟩ := x
  rfl

theorem length_flatMap_px4 {α : Type} (l : List α) (g : α → Nat × Nat × Nat × Nat) :
    (l.flatMap fun p => px4 (g p)).length = 4 * l.length := by
  induction l with
  | nil => rfl
  | cons a tl ih =>
    simp only [List.flatMap_cons, List.length_append, px4_length, ih, List.length_cons]
    omega

theorem newRGBAPix_length (i : GoImage) :
    (newRGBAPix i).length = 4 * (i.rect.dx.toNat * i.rect.dy.toNat) := by
  unfold newRGBAPix
  rw [length_flatMap_px4, List.length_range]

-- Concrete images and witness inputs used below.

/-- A `glimage.BGRA4444` value with `Stride = 3` (stride in the code's
per-pixel units) and six buffer entries. -/
def img4444 : GoImage := ⟨.bgra4444, [1, 2, 3, 4, 5, 6], 3, ⟨0, 0, 1, 2⟩, fun _ _ => (0, 0, 0, 0)⟩

/-- Result of `image.NewAlpha(image.Rect(0,0,0,0))`: a recognized representation
with an empty pixel buffer and stride 0. -/
def alphaEmpty : GoImage := ⟨.alpha, [], 0, ⟨0, 0, 0, 0⟩, fun _ _ => (0, 0, 0, 0)⟩

/-- Result of `image.NewRGBA(image.Rect(0,0,0,0))`: empty bounds, empty buffer. -/
def rgbaEmpty : GoImage := ⟨.rgba, [], 0, ⟨0, 0, 0, 0⟩, fun _ _ => (0, 0, 0, 0)⟩

/-- A 1x1 `image.RGBA` image. -/
def rgbaOne : GoImage := ⟨.rgba, [10, 20, 30, 40], 4, ⟨0, 0, 1, 1⟩, fun _ _ => (0, 0, 0, 0)⟩

/-- An image whose concrete type none of the dispatch tables recognize. -/
def unknownOne : GoImage := ⟨.unknown, [7], 1, ⟨0, 0, 2, 1⟩, fun x y => (x.toNat, y.toNat, 9, 9)⟩

/-- C1.  For every image of a recognized uncompressed pixel
representation whose row stride is evenly divisible by the per-pixel
component size `epp` of the dispatch table (and whose pixel buffer is
nonempty, so that `getImageInfo` returns at all), `getImageInfo` returns
row length `stride / epp`, so row length times `epp` equals the stride
exactly, with the table's format and type tags — for every recognized
representation, the 16-bit packed BGRA4444 / BGRA5551 / BGR565 entries
included. -/
theorem getImageInfo_recognized_rowLength_exact :
    ∀ (i : GoImage) (epp fmt ty : Nat),
    recognizeUncompressed i.kind = some (epp, fmt, ty) →
    i.pix.length ≠ 0 →
    i.stride.tmod (epp : Int) = 0 →
    ∃ info, getImageInfo i = .ok info ∧
      info.rowLength = i.stride.tdiv (epp : Int) ∧
      info.rowLength * (epp : Int) = i.stride ∧
      info.format = fmt ∧ info.typ = ty ∧ info.dataPix = i.pix := by
  intro i epp fmt ty hrec hpix hmod
  have hdiv : i.stride.tdiv (epp : Int) * (epp : Int) = i.stride :=
    Int.tdiv_mul_cancel_of_tmod_eq_zero hmod
  simp only [getImageInfo, hrec]
  rw [if_neg hpix, if_neg (by simp [hmod])]
  exact ⟨_, rfl, rfl, hdiv, rfl, rfl, rfl⟩

theorem getImageInfo_recognized_rowLength_exact_witness :
    img4444.pix.length ≠ 0 ∧ img4444.stride.tmod 1 = 0 ∧
    ∃ info, getImageInfo img4444 = .ok info ∧
      info.rowLength = img4444.stride.tdiv 1 ∧
      info.rowLength * 1 = img4444.stride ∧
      info.format = GL_BGRA ∧ info.typ = UNSIGNED_SHORT_4_4_4_4_REV ∧
      info.dataPix = img4444.pix :=
  ⟨by decide, by decide,
   getImageInfo_recognized_rowLength_exact img4444 1 GL_BGRA UNSIGNED_SHORT_4_4_4_4_REV
     (by decide) (by decide) (by decide)⟩

/-- The exact condition under which `getImageInfo` panics: a recognized
representation panics on an empty pixel buffer (the `reflect`
`Index(0)` at src/gla.go:167) or on a stride not evenly divisible by
`epp` (src/gla.go:171); an unrecognized representation panics exactly
when its bounds are empty or inverted (`image.NewRGBA` /
`Index(0)` on the synthesized buffer, src/gla.go:159-162). -/
def getImageInfoPanics (i : GoImage) : Prop :=
  match recognizeUncompressed i.kind with
  | some (epp, _, _) => i.pix = [] ∨ i.stride.tmod (epp : Int) ≠ 0
  | none => i.rect.dx ≤ 0 ∨ i.rect.dy ≤ 0

/-- C6 (counterexample).  A recognized image (`image.Alpha`) whose
stride 0 is evenly divisible by its per-pixel size 1, on which
`getImageInfo` nevertheless panics: the claimed "if and only if" fails
in the "only if" direction because the address of `Pix[0]` is taken
before the stride check. -/
theorem getImageInfo_panics_despite_divisible_stride :
    recognizeUncompressed alphaEmpty.kind = some (1, GL_ALPHA, GL_UNSIGNED_BYTE) ∧
    alphaEmpty.stride.tmod 1 = 0 ∧
    getImageInfo alphaEmpty = .panics "reflect: array index out of range" := by
  refine ⟨rfl, rfl, ?_⟩
  decide

/-- C6 (amended).  Characterization: `getImageInfo` panics if and only if: the image has a
recognized representation and its pixel buffer is empty or its stride is
not evenly divisible by the per-pixel component size; or the image has
an unrecognized representation and its bounds are empty (or inverted).
Recognized images with a nonempty buffer and divisible stride, and
unrecognized images with positive-area bounds, return normally. -/
theorem getImageInfo_panic_characterization :
    ∀ i : GoImage, (∃ m, getImageInfo i = .panics m) ↔ getImageInfoPanics i := by
  intro i
  unfold getImageInfo getImageInfoPanics
  cases hrec : recognizeUncompressed i.kind with
  | some v =>
    obtain ⟨epp, fmt, ty⟩ := v
    by_cases h1 : i.pix.length = 0
    · simp [h1, List.length_eq_zero.mp h1]
    · have h1' : ¬ i.pix = [] := fun h => h1 (by simp [h])
      by_cases h2 : i.stride.tmod (epp : Int) = 0
      · simp [h1, h1', h2]
      · simp [h1, h1', h2]
  | none =>
    by_cases h1 : i.rect.dx < 0 ∨ i.rect.dy < 0
    · simp only [if_pos h1]
      constructor
      · intro _; omega
      · intro _; exact ⟨_, rfl⟩
    · have hlen : (newRGBAPix i).length = 4 * (i.rect.dx.toNat * i.rect.dy.toNat) :=
        newRGBAPix_length i
      by_cases h2 : i.rect.dx ≤ 0 ∨ i.rect.dy ≤ 0
      · have hp : i.rect.dx.toNat * i.rect.dy.toNat = 0 := by
          rcases h2 with h | h
          · have hz : i.rect.dx.toNat = 0 := by omega
            rw [hz, Nat.zero_mul]
          · have hz : i.rect.dy.toNat = 0 := by omega
            rw [hz, Nat.mul_zero]
        have : (newRGBAPix i).length = 0 := by rw [hlen, hp]
        simp only [if_neg h1, this]
        simp [h2]
      · have hp : 0 < i.rect.dx.toNat * i.rect.dy.toNat :=
          Nat.mul_pos (by omega) (by omega)
        have : ¬ (newRGBAPix i).length = 0 := by omega
        simp only [if_neg h1, if_neg this]
        simp [h2]

/-- C7.  For every image whose representation is not in the recognized
set (and whose bounds have positive area, so that `getImageInfo`
returns at all), `getImageInfo` synthesizes the new 8-bit RGBA buffer
obtained by drawing the source onto it and returns format `RGBA`, type
`UNSIGNED_BYTE`, and a row length with row length times 4 equal to the
synthesized buffer's stride `4 * Dx`. -/
theorem getImageInfo_unrecognized_rgba8 :
    ∀ i : GoImage, recognizeUncompressed i.kind = none →
    0 < i.rect.dx → 0 < i.rect.dy →
    ∃ info, getImageInfo i = .ok info ∧
      info.format = GL_RGBA ∧ info.typ = GL_UNSIGNED_BYTE ∧
      info.dataPix = newRGBAPix i ∧
      info.rowLength * 4 = newRGBAStride i.rect := by
  intro i hrec hdx hdy
  have hp : 0 < i.rect.dx.toNat * i.rect.dy.toNat :=
    Nat.mul_pos (by omega) (by omega)
  have hlen : ¬ (newRGBAPix i).length = 0 := by
    rw [newRGBAPix_length]
    omega
  have hneg : ¬ (i.rect.dx < 0 ∨ i.rect.dy < 0) := by omega
  unfold getImageInfo
  rw [hrec]
  simp only [if_neg hneg, if_neg hlen]
  refine ⟨_, rfl, rfl, rfl, rfl, ?_⟩
  show (newRGBAStride i.rect).tdiv 4 * 4 = newRGBAStride i.rect
  unfold newRGBAStride
  rw [Int.mul_tdiv_cancel_left _ (by norm_num)]
  ring

theorem getImageInfo_unrecognized_rgba8_witness :
    recognizeUncompressed unknownOne.kind = none ∧
    (0 : Int) < unknownOne.rect.dx ∧ (0 : Int) < unknownOne.rect.dy ∧
    ∃ info, getImageInfo unknownOne = .ok info ∧
      info.format = GL_RGBA ∧ info.typ = GL_UNSIGNED_BYTE ∧
      info.dataPix = newRGBAPix unknownOne ∧
      info.rowLength * 4 = newRGBAStride unknownOne.rect :=
  ⟨rfl, by decide, by decide,
   getImageInfo_unrecognized_rgba8 unknownOne rfl (by decide) (by decide)⟩

/-- Modelled from the spec: the "manual block-row extraction of the
requested sub-rectangle from the source" against which the repack
branch of `getCompressedImageInfo` is judged (the external image
library supplying `Pix`/`Stride`/`Rect` is not under src/).  Following
that library's sub-image convention (the block containing `Rect.Min` is
the first block of `Pix`), block-row `i` of the sub-rectangle occupies
bytes `[i*stride, i*stride + sub_stride)` of the source buffer, with
`sub_stride = ceil(w/4) * blocksize`, for `ceil(h/4)` block-rows. -/
def specBlockRowExtraction (data : List Nat) (stride w h : Int) (blocksize : Nat) : List Nat :=
  let ss := ((w + 3).tdiv 4).toNat * blocksize
  let rows := ((h + 3).tdiv 4).toNat
  (List.range rows).flatMap fun i => (data.drop (i * stride.toNat)).take ss

/-- A `glimage.Dxt1` value describing the 4x4 sub-rectangle at minimum
corner (4,4) of an 8x8 compressed image: source bytes 0..31, stride 16
(two 8-byte blocks per block-row). -/
def dxt1Sub : GoImage := ⟨.dxt1, List.range 32, 16, ⟨4, 4, 8, 8⟩, fun _ _ => (0, 0, 0, 0)⟩

/-- C2.  At `dxt1Sub` the strides differ (8 vs 16), and the code does
allocate the block-aligned `1*1*8`-byte buffer — but the copy starts at
source offset `Min.X + Min.Y = 8` because the intended block offset
expression `(blockdim-1)/blockdim*blocksize` collapses to the integer 0
(src/gla.go:254-255), so the returned buffer holds bytes 8..15 instead
of the requested sub-rectangle's block row, and does not match the
manual block-row extraction. -/
theorem getCompressedImageInfo_subrect_extraction_bug :
    getCompressedImageInfo dxt1Sub =
      .ok { rowLength := 0, length := 8, format := COMPRESSED_RGBA_S3TC_DXT1, typ := 0,
            dataPix := [8, 9, 10, 11, 12, 13, 14, 15] } ∧
    specBlockRowExtraction dxt1Sub.pix dxt1Sub.stride dxt1Sub.rect.dx dxt1Sub.rect.dy 8 =
      [0, 1, 2, 3, 4, 5, 6, 7] ∧
    ([8, 9, 10, 11, 12, 13, 14, 15] : List Nat) ≠ [0, 1, 2, 3, 4, 5, 6, 7] := by
  refine ⟨?_, ?_, ?_⟩ <;> decide

/-- C4 (counterexample).  `TexSubImage2DFromImage` called on an image
with empty bounds (`image.NewRGBA` of an empty rectangle) and an empty
destination rectangle — which does not exceed the bounds — is not a
silent no-op: it reaches `getImageInfo`, which panics on the empty
pixel buffer (there is no empty-bounds check at src/gla.go:208). -/
theorem texSubImage_empty_bounds_panics :
    rgbaEmpty.rect.isEmpty = true ∧
    ¬ ((⟨0, 0, 0, 0⟩ : Rectangle).dx > rgbaEmpty.rect.dx ∨
       (⟨0, 0, 0, 0⟩ : Rectangle).dy > rgbaEmpty.rect.dy) ∧
    TexSubImage2DFromImage 0 0 ⟨0, 0, 0, 0⟩ rgbaEmpty =
      .panics "reflect: array index out of range" := by
  refine ⟨rfl, by decide, ?_⟩
  decide

/-- C4 (amended).  `TexSubImage2DFromImage` with a destination rectangle
wider or taller than the source bounds performs zero native calls, and
`TexImage2DFromImage` and `CompressedTexImage2DFromImage` with an image
whose bounds are empty are silent no-ops with zero native calls; but
`TexSubImage2DFromImage` performs no empty-bounds check of its own, so
an empty image whose destination rectangle does not exceed its bounds
proceeds to `getImageInfo` (and panics when the pixel buffer is
empty). -/
theorem upload_silent_noop_amended :
    (∀ (target : Nat) (level : Int) (dest : Rectangle) (img : GoImage),
      dest.dx > img.rect.dx ∨ dest.dy > img.rect.dy →
      TexSubImage2DFromImage target level dest img = .ok []) ∧
    (∀ (target : Nat) (level internalformat border : Int) (img : GoImage),
      img.rect.isEmpty = true →
      TexImage2DFromImage target level internalformat border img = .ok []) ∧
    (∀ (target : Nat) (level border : Int) (img : GoImage),
      img.rect.isEmpty = true →
      CompressedTexImage2DFromImage target level border img = .ok []) := by
  refine ⟨?_, ?_, ?_⟩
  · intro target level dest img h
    simp only [TexSubImage2DFromImage]
    rw [if_pos h]
  · intro target level internalformat border img h
    simp only [TexImage2DFromImage]
    rw [if_pos h]
  · intro target level border img h
    simp only [CompressedTexImage2DFromImage]
    rw [if_pos h]

theorem upload_silent_noop_amended_witness :
    TexSubImage2DFromImage 0 0 ⟨0, 0, 2, 2⟩ rgbaOne = .ok [] ∧
    TexImage2DFromImage 0 0 0 0 rgbaEmpty = .ok [] ∧
    CompressedTexImage2DFromImage 0 0 0 rgbaEmpty = .ok [] :=
  ⟨upload_silent_noop_amended.1 0 0 ⟨0, 0, 2, 2⟩ rgbaOne (by decide),
   upload_silent_noop_amended.2.1 0 0 0 0 rgbaEmpty (by decide),
   upload_silent_noop_amended.2.2 0 0 0 rgbaEmpty (by decide)⟩

/-- C5.  For every image that is none of Dxt1/Dxt3/Dxt5,
`getCompressedImageInfo` returns the reported error value (it cannot
panic: the `switch` default returns before any buffer access), and
`CompressedTexImage2DFromImage` discards that error and returns with
zero native calls. -/
theorem compressed_unrecognized_error_noop :
    ∀ (target : Nat) (level border : Int) (img : GoImage),
    dxtInfo img.kind = none →
    getCompressedImageInfo img = .error "gla: unrecognized texture format" ∧
    CompressedTexImage2DFromImage target level border img = .ok [] := by
  intro target level border img h
  have h1 : getCompressedImageInfo img = .error "gla: unrecognized texture format" := by
    simp only [getCompressedImageInfo, h]
  refine ⟨h1, ?_⟩
  simp only [CompressedTexImage2DFromImage, h1]
  by_cases he : img.rect.isEmpty = true
  · rw [if_pos he]
  · rw [if_neg he]

theorem compressed_unrecognized_error_noop_witness :
    getCompressedImageInfo rgbaOne = .error "gla: unrecognized texture format" ∧
    CompressedTexImage2DFromImage 0 0 0 rgbaOne = .ok [] :=
  compressed_unrecognized_error_noop 0 0 0 rgbaOne rfl

/-- C3 (counterexample).  An empty, non-nil slice is not rejected with
an error: `val.Index(0)` at src/gla.go:329 panics inside `reflect`
before any size is computed. -/
theorem sliceToUintptr_empty_slice_panics :
    sliceToUintptr (SliceArg.slc 4 0) = .panics "reflect: array index out of range" := by
  decide

/-- C3 (amended).  A nil pointer or nil slice is rejected with a
reported error before any address is taken; a sequence of `N ≥ 1`
elements of size `S` yields total byte size `N*S` exactly in the
`glBufferData` call; an empty, non-nil slice makes the resolver panic
inside `reflect` rather than being rejected; a valid single value
yields element count 1; and whenever resolution succeeds the element
count is at least 1. -/
theorem sliceToUintptr_bulk_amended :
    sliceToUintptr .ptrNil = .error "gla: nil" ∧
    sliceToUintptr .sliceNil = .error "gla: nil" ∧
    (∀ (target usage es n : Nat), 0 < n →
      BufferData target (.slc es n) usage = .ok [.bufferData target (es * n) usage]) ∧
    (∀ es : Nat, sliceToUintptr (.slc es 0) = .panics "reflect: array index out of range") ∧
    (∀ s : Nat, sliceToUintptr (.ptrVal s) = .ok { size := s, length := 1 }) ∧
    (∀ (a : SliceArg) (d : sliceInfo), sliceToUintptr a = .ok d → 1 ≤ d.length) := by
  refine ⟨rfl, rfl, ?_, ?_, ?_, ?_⟩
  · intro target usage es n hn
    have h0 : sliceToUintptr (.slc es n) = .ok { size := es, length := n } := by
      simp only [sliceToUintptr]
      rw [if_neg (by omega)]
    simp only [BufferData, h0]
  · intro es
    rfl
  · intro s
    rfl
  · intro a d h
    cases a with
    | ptrNil => simp [sliceToUintptr] at h
    | sliceNil => simp [sliceToUintptr] at h
    | otherArg => simp [sliceToUintptr] at h
    | ptrVal s =>
      simp only [sliceToUintptr] at h
      injection h with h'
      subst h'
      exact Nat.le_refl 1
    | ptrArray es n =>
      simp only [sliceToUintptr] at h
      by_cases hn : n = 0
      · rw [if_pos hn] at h
        cases h
      · rw [if_neg hn] at h
        injection h with h'
        subst h'
        show 1 ≤ n
        omega
    | slc es n =>
      simp only [sliceToUintptr] at h
      by_cases hn : n = 0
      · rw [if_pos hn] at h
        cases h
      · rw [if_neg hn] at h
        injection h with h'
        subst h'
        show 1 ≤ n
        omega

theorem sliceToUintptr_bulk_amended_witness :
    BufferData 1 (SliceArg.slc 4 5) 2 = .ok [.bufferData 1 (4 * 5) 2] ∧
    1 ≤ ({ size := 4, length := 5 } : sliceInfo).length :=
  ⟨sliceToUintptr_bulk_amended.2.2.1 1 2 4 5 (by decide),
   sliceToUintptr_bulk_amended.2.2.2.2.2 (SliceArg.slc 4 5) _ (by decide)⟩

/-- The two-field struct witness of the spec's testable property. -/
def recWitness : RType := .strct 8 [(.num .f32, 0), (.num .f32, 4)]

/-- C8.  For every witness value accepted by `sliceAttrib`, the stride
equals the witness type's overall byte size, and the classification is:
a numeric scalar yields element count 1 and offset 0; a fixed-length
array yields element count equal to its length, offset 0, element type
from the array's component type; a struct with an in-range field index
yields offset equal to that field's byte offset and element count/type
by the scalar/array rule applied to the field's type. -/
theorem sliceAttrib_classification :
    ∀ (t : RType) (idx : Int) (d : attribInfo),
    sliceAttrib t idx = .ok d →
    d.stride = t.size ∧
    (∀ k, t = .num k → d.elements = 1 ∧ d.offset = 0 ∧ sliceFieldToGL (.num k) = .ok d.gltype) ∧
    (∀ e n, t = .array e n → d.elements = n ∧ d.offset = 0 ∧ sliceFieldToGL e = .ok d.gltype) ∧
    (∀ sz fs, t = .strct sz fs →
      0 ≤ idx ∧ ∃ ft off, fs.get? idx.toNat = some (ft, off) ∧ d.offset = off ∧
        ((∃ e n, ft = RType.array e n ∧ d.elements = n ∧ sliceFieldToGL e = .ok d.gltype) ∨
         (ft.isArr = false ∧ d.elements = 1 ∧ sliceFieldToGL ft = .ok d.gltype))) := by
  intro t idx d h
  cases t with
  | num k =>
    cases hg : sliceFieldToGL (RType.num k) with
    | ok g =>
      simp only [sliceAttrib, hg] at h
      injection h with h'
      subst h'
      refine ⟨rfl, ?_, ?_, ?_⟩
      · intro k' hk
        injection hk with hk'
        subst hk'
        exact ⟨rfl, rfl, by rw [hg]⟩
      · intro e n hx
        exact RType.noConfusion hx
      · intro sz fs hx
        exact RType.noConfusion hx
    | error m =>
      simp only [sliceAttrib, hg] at h
      exact Outcome.noConfusion h
    | panics m =>
      simp only [sliceAttrib, hg] at h
      exact Outcome.noConfusion h
  | array elem n =>
    cases hg : sliceFieldToGL elem with
    | ok g =>
      simp only [sliceAttrib, hg] at h
      injection h with h'
      subst h'
      refine ⟨rfl, ?_, ?_, ?_⟩
      · intro k hk
        exact RType.noConfusion hk
      · intro e n' hx
        injection hx with hx1 hx2
        subst hx1
        subst hx2
        exact ⟨rfl, rfl, by rw [hg]⟩
      · intro sz fs hx
        exact RType.noConfusion hx
    | error m =>
      simp only [sliceAttrib, hg] at h
      exact Outcome.noConfusion h
    | panics m =>
      simp only [sliceAttrib, hg] at h
      exact Outcome.noConfusion h
  | otherType s =>
    simp only [sliceAttrib, sliceFieldToGL] at h
    exact Outcome.noConfusion h
  | strct sz fs =>
    simp only [sliceAttrib] at h
    by_cases h0 : 0 ≤ idx
    · rw [if_pos h0] at h
      cases hget : fs.get? idx.toNat with
      | none =>
        rw [hget] at h
        exact Outcome.noConfusion h
      | some sf =>
        rw [hget] at h
        obtain ⟨ft, off⟩ := sf
        cases ft with
        | array elem n =>
          cases hg : sliceFieldToGL elem with
          | ok g =>
            simp only [hg] at h
            injection h with h'
            subst h'
            refine ⟨rfl, fun k hk => RType.noConfusion hk,
              fun e n' hx => RType.noConfusion hx, ?_⟩
            intro sz' fs' hx
            injection hx with hx1 hx2
            subst hx2
            exact ⟨h0, RType.array elem n, off, hget, rfl,
              Or.inl ⟨elem, n, rfl, rfl, by rw [hg]⟩⟩
          | error m =>
            simp only [hg] at h
            exact Outcome.noConfusion h
          | panics m =>
            simp only [hg] at h
            exact Outcome.noConfusion h
        | num k2 =>
          cases hg : sliceFieldToGL (RType.num k2) with
          | ok g =>
            simp only [hg] at h
            injection h with h'
            subst h'
            refine ⟨rfl, fun k hk => RType.noConfusion hk,
              fun e n' hx => RType.noConfusion hx, ?_⟩
            intro sz' fs' hx
            injection hx with hx1 hx2
            subst hx2
            exact ⟨h0, RType.num k2, off, hget, rfl, Or.inr ⟨rfl, rfl, by rw [hg]⟩⟩
          | error m =>
            simp only [hg] at h
            exact Outcome.noConfusion h
          | panics m =>
            simp only [hg] at h
            exact Outcome.noConfusion h
        | strct s2 f2 =>
          simp only [sliceFieldToGL] at h
          exact Outcome.noConfusion h
        | otherType s2 =>
          simp only [sliceFieldToGL] at h
          exact Outcome.noConfusion h
    · rw [if_neg h0] at h
      exact Outcome.noConfusion h

theorem sliceAttrib_classification_witness :
    sliceAttrib recWitness 1 = .ok ⟨GL_FLOAT, 1, 4, 8⟩ ∧
    (⟨GL_FLOAT, 1, 4, 8⟩ : attribInfo).stride = recWitness.size := by
  have h := sliceAttrib_classification recWitness 1 ⟨GL_FLOAT, 1, 4, 8⟩ (by decide)
  exact ⟨by decide, h.1⟩

/-- C9.  After a successful resolve, `NormalSlice` reports an error
(and performs no native call) exactly when the element count is not 3,
while `VertexAttribSlice`, `VertexSlice`, `ColorSlice` and
`TexCoordSlice` issue their native call for every resolved element
count. -/
theorem normalSlice_element_count :
    ∀ (t : RType) (idx : Int) (d : attribInfo) (ai : Nat) (nrm : Bool),
    sliceAttrib t idx = .ok d →
    (d.elements ≠ 3 → NormalSlice t idx = .error "gla: invalid number of elements") ∧
    (d.elements = 3 → NormalSlice t idx = .ok [.normalPointer d.gltype d.stride d.offset]) ∧
    VertexAttribSlice ai nrm t idx =
      .ok [.vertexAttribPointer ai d.elements d.gltype nrm d.stride d.offset] ∧
    VertexSlice t idx = .ok [.vertexPointer d.elements d.gltype d.stride d.offset] ∧
    ColorSlice t idx = .ok [.colorPointer d.elements d.gltype d.stride d.offset] ∧
    TexCoordSlice t idx = .ok [.texCoordPointer d.elements d.gltype d.stride d.offset] := by
  intro t idx d ai nrm h
  refine ⟨?_, ?_, ?_, ?_, ?_, ?_⟩
  · intro hne
    simp only [NormalSlice, h]
    rw [if_pos hne]
  · intro heq
    simp only [NormalSlice, h]
    rw [if_neg (by simp [heq])]
  · simp only [VertexAttribSlice, h]
  · simp only [VertexSlice, h]
  · simp only [ColorSlice, h]
  · simp only [TexCoordSlice, h]

theorem normalSlice_element_count_witness :
    NormalSlice (RType.num NumKind.f32) 0 = .error "gla: invalid number of elements" ∧
    NormalSlice (RType.array (RType.num NumKind.f32) 3) 0 =
      .ok [.normalPointer GL_FLOAT 12 0] ∧
    VertexSlice (RType.num NumKind.f32) 0 = .ok [.vertexPointer 1 GL_FLOAT 4 0] := by
  have h1 := normalSlice_element_count (RType.num .f32) 0 ⟨GL_FLOAT, 1, 0, 4⟩ 0 false (by decide)
  have h2 := normalSlice_element_count (RType.array (RType.num .f32) 3) 0
    ⟨GL_FLOAT, 3, 0, 12⟩ 0 false (by decide)
  exact ⟨h1.1 (by decide), h2.2.1 rfl, h1.2.2.2.1⟩

/-- C10.  A struct witness with a field selector that is negative or not
below the number of fields makes `sliceAttrib` — and every public
binding function calling it — panic inside `reflect` rather than return
an error value; for non-struct witnesses the field selector is ignored
entirely. -/
theorem sliceAttrib_bad_field_index_panics :
    (∀ (sz : Nat) (fs : List (RType × Nat)) (idx : Int) (ai : Nat) (nrm : Bool),
      idx < 0 ∨ (fs.length : Int) ≤ idx →
      sliceAttrib (.strct sz fs) idx = .panics "reflect: Field index out of bounds" ∧
      VertexAttribSlice ai nrm (.strct sz fs) idx =
        .panics "reflect: Field index out of bounds" ∧
      VertexSlice (.strct sz fs) idx = .panics "reflect: Field index out of bounds" ∧
      NormalSlice (.strct sz fs) idx = .panics "reflect: Field index out of bounds" ∧
      ColorSlice (.strct sz fs) idx = .panics "reflect: Field index out of bounds" ∧
      TexCoordSlice (.strct sz fs) idx = .panics "reflect: Field index out of bounds") ∧
    (∀ t : RType, t.isStrct = false → ∀ i j : Int, sliceAttrib t i = sliceAttrib t j) := by
  constructor
  · intro sz fs idx ai nrm hidx
    have hsa : sliceAttrib (RType.strct sz fs) idx =
        .panics "reflect: Field index out of bounds" := by
      rcases hidx with hneg | hge
      · simp only [sliceAttrib]
        rw [if_neg (by omega)]
      · simp only [sliceAttrib]
        rw [if_pos (by omega), List.get?_eq_none.mpr (by omega)]
    exact ⟨hsa,
      by simp only [VertexAttribSlice, hsa],
      by simp only [VertexSlice, hsa],
      by simp only [NormalSlice, hsa],
      by simp only [ColorSlice, hsa],
      by simp only [TexCoordSlice, hsa]⟩
  · intro t ht i j
    cases t with
    | strct s f => simp [RType.isStrct] at ht
    | num k => rfl
    | array e n => rfl
    | otherType s => rfl

theorem sliceAttrib_bad_field_index_panics_witness :
    sliceAttrib (RType.strct 4 [(RType.num NumKind.f32, 0)]) 5 =
      .panics "reflect: Field index out of bounds" ∧
    NormalSlice (RType.strct 4 [(RType.num NumKind.f32, 0)]) (-1) =
      .panics "reflect: Field index out of bounds" ∧
    sliceAttrib (RType.num NumKind.f32) 0 = sliceAttrib (RType.num NumKind.f32) 9 :=
  ⟨(sliceAttrib_bad_field_index_panics.1 4 [(.num .f32, 0)] 5 0 false (by decide)).1,
   (sliceAttrib_bad_field_index_panics.1 4 [(.num .f32, 0)] (-1) 0 false (by decide)).2.2.2.1,
   sliceAttrib_bad_field_index_panics.2 (.num .f32) rfl 0 9⟩

end Gla
